import Mathlib

/-
Verification of the ANALYSIS-DOC backend (document-analysis web service).

Shallow embedding of:
  - src/backend/openrouter_service.py : the retrying LLM caller with JSON
    salvage, the content builder and the analysis dispatch;
  - src/backend/main.py : request validation in the HTTP endpoints;
  - src/backend/database.py : the schema delete rules (CASCADE / SET NULL).

Library calls (the Python json decoder, base64, the docx extractor, the
UTF-8 decoder, the HTTP client and the database driver) are modelled as
explicit oracle parameters; everything written in the repository itself is
translated directly from the source.
-/

set_option maxHeartbeats 1000000

namespace AnalysisDoc

/-! ## openrouter_service.py : call_openrouter (lines 84-171) -/

/-- Classified failure of one attempt, mirroring the error messages raised
in call_openrouter: non-200 status, bad envelope, empty content, JSON
parse failure, timeout. -/
inductive CallError where
  | apiError (status : Nat)
  | invalidStructure
  | emptyContent
  | jsonParseFailure
  | timedOut
deriving DecidableEq, Repr

/-- One mock upstream HTTP response: status code, whether the envelope
check (data.get choices, choices 0 .get message) passes, and the content
field of the first message (none models a null content). -/
structure MockResponse where
  status : Nat
  hasChoicesMessage : Bool
  content : Option String
deriving DecidableEq, Repr

/-- Outcome of one POST as seen by the caller: either the request timed
out or a response arrived. -/
inductive UpstreamBehavior where
  | timeout
  | resp (r : MockResponse)
deriving DecidableEq, Repr

/-- Left brace character. -/
def lbrace : Char := Char.ofNat 123

/-- Right brace character. -/
def rbrace : Char := Char.ofNat 125

/-- Python str.strip: remove leading and trailing whitespace. -/
def pyStrip (s : String) : String :=
  String.mk (((s.data.dropWhile Char.isWhitespace).reverse.dropWhile
    Char.isWhitespace).reverse)

/-- Drops elements until the first one satisfying p; returns the suffix
starting there, or none when no element satisfies p. -/
def dropUntil (p : Char → Bool) : List Char → Option (List Char)
  | [] => none
  | c :: rest => if p c then some (c :: rest) else dropUntil p rest

/-- Translation of the salvage regex search in call_openrouter line 145,
a search for a brace-opened, brace-closed span.  The regex engine returns
the leftmost match, and the greedy star stretches it to the last closing
brace of the text: the result spans from the first left brace to the last
right brace, provided that right brace comes after the left one. -/
def extract_braced (s : String) : Option String :=
  match dropUntil (fun c => c = lbrace) s.data with
  | none => none
  | some suf =>
    match dropUntil (fun c => c = rbrace) suf.reverse with
    | none => none
    | some revPre => some (String.mk revPre.reverse)

/-- One attempt of call_openrouter (lines 90-154), parameterised by the
Python json decoder (parse).  Classification follows the source order:
status check, envelope check, empty-content check, json decode with the
brace-salvage fallback. -/
def processAttempt {α : Type} (parse : String → Option α) :
    UpstreamBehavior → Except CallError α
  | .timeout => .error .timedOut
  | .resp r =>
    if r.status ≠ 200 then .error (.apiError r.status)
    else if r.hasChoicesMessage = false then .error .invalidStructure
    else
      match r.content with
      | none => .error .emptyContent
      | some c =>
        if pyStrip c = "" then .error .emptyContent
        else
          match parse c with
          | some v => .ok v
          | none =>
            match extract_braced c with
            | some sub =>
              match parse sub with
              | some v => .ok v
              | none => .error .jsonParseFailure
            | none => .error .jsonParseFailure

/-- The retry loop of call_openrouter: attempt numbers count up, remaining
counts the retries still allowed; on success or on the last allowed
attempt the loop stops.  Returns the outcome together with the number of
attempts issued. -/
def callLoop {α : Type} (step : Nat → Except CallError α) :
    Nat → Nat → Except CallError α × Nat
  | attempt, remaining =>
    match step attempt with
    | .ok v => (.ok v, attempt + 1)
    | .error e =>
      match remaining with
      | 0 => (.error e, attempt + 1)
      | n + 1 => callLoop step (attempt + 1) n

/-- call_openrouter (lines 84-171): for attempt in range(retries + 1),
process one POST per attempt, return the first successfully parsed
object, raise the last error after the final attempt.  The upstream
oracle gives the behaviour of the i-th POST. -/
def call_openrouter {α : Type} (parse : String → Option α)
    (upstream : Nat → UpstreamBehavior) (retries : Nat) :
    Except CallError α × Nat :=
  callLoop (fun i => processAttempt parse (upstream i)) 0 retries

/-- Unfolding: a successful attempt stops the loop at once. -/
theorem callLoop_ok {α : Type} {step : Nat → Except CallError α} {a : Nat}
    {v : α} (h : step a = .ok v) (n : Nat) :
    callLoop step a n = (.ok v, a + 1) := by
  cases n <;> rw [callLoop, h]

/-- Unfolding: a failed attempt with no retries left surfaces its error. -/
theorem callLoop_err_zero {α : Type} {step : Nat → Except CallError α}
    {a : Nat} {e : CallError} (h : step a = .error e) :
    callLoop step a 0 = (.error e, a + 1) := by
  rw [callLoop, h]

/-- Unfolding: a failed attempt with retries left continues immediately. -/
theorem callLoop_err_succ {α : Type} {step : Nat → Except CallError α}
    {a : Nat} {e : CallError} (h : step a = .error e) (n : Nat) :
    callLoop step a (n + 1) = callLoop step (a + 1) n := by
  rw [callLoop, h]

/-- When every attempt from a through a + n fails, the loop returns the
error of the last attempt after issuing them all. -/
theorem callLoop_all_fail {α : Type} (step : Nat → Except CallError α) :
    ∀ (n a : Nat), (∀ i, i ≤ n → ∃ e, step (a + i) = .error e) →
      ∃ e, step (a + n) = .error e ∧ callLoop step a n = (.error e, a + n + 1) := by
  intro n
  induction n with
  | zero =>
    intro a h
    obtain ⟨e, he⟩ := h 0 (Nat.le_refl 0)
    rw [show a + 0 = a from rfl] at he
    exact ⟨e, by simpa using he, callLoop_err_zero he⟩
  | succ n ih =>
    intro a h
    obtain ⟨e0, he0⟩ := h 0 (Nat.zero_le _)
    rw [show a + 0 = a from rfl] at he0
    obtain ⟨e, he, hloop⟩ := ih (a + 1) (fun i hi => by
      obtain ⟨e, he⟩ := h (i + 1) (Nat.succ_le_succ hi)
      exact ⟨e, by rw [show a + 1 + i = a + (i + 1) by omega]; exact he⟩)
    refine ⟨e, ?_, ?_⟩
    · rw [show a + (n + 1) = a + 1 + n by omega]; exact he
    · rw [callLoop_err_succ he0, hloop]
      simp only [Prod.mk.injEq, true_and]
      omega

/-- When attempts a through a + k - 1 fail and attempt a + k succeeds
with v (k within the retry budget n), the loop returns v after exactly
k + 1 further attempts. -/
theorem callLoop_succeeds {α : Type} (step : Nat → Except CallError α) :
    ∀ (k n a : Nat) (v : α), k ≤ n →
      (∀ i, i < k → ∃ e, step (a + i) = .error e) →
      step (a + k) = .ok v →
      callLoop step a n = (.ok v, a + k + 1) := by
  intro k
  induction k with
  | zero =>
    intro n a v _ _ hok
    rw [show a + 0 = a from rfl] at hok
    exact callLoop_ok hok n
  | succ k ih =>
    intro n a v hkn hfail hok
    obtain ⟨e0, he0⟩ := hfail 0 (Nat.succ_pos k)
    rw [show a + 0 = a from rfl] at he0
    obtain ⟨m, rfl⟩ : ∃ m, n = m + 1 := ⟨n - 1, by omega⟩
    have := ih m (a + 1) v (by omega)
      (fun i hi => by
        obtain ⟨e, he⟩ := hfail (i + 1) (Nat.succ_lt_succ hi)
        exact ⟨e, by rw [show a + 1 + i = a + (i + 1) by omega]; exact he⟩)
      (by rw [show a + 1 + k = a + (k + 1) by omega]; exact hok)
    rw [callLoop_err_succ he0, this]
    simp only [Prod.mk.injEq, true_and]
    omega

/-- Claim C1: for every retry count r, if every one of the r + 1 attempts
fails (bad status, bad envelope, empty content, JSON decode failure after
salvage, or timeout) then call_openrouter raises an error after issuing
exactly r + 1 POST attempts and never yields a result; and if the
attempts with zero-based index below N0 fail while attempt N0 (so the
(N0+1)-st attempt, N0 + 1 ≤ r + 1) yields content that parses, the call
returns that parsed object having issued exactly N0 + 1 attempts.  The
loop recurses immediately with no sleep, so no delay separates
attempts. -/
theorem C1_retry_contract {α : Type} (parse : String → Option α)
    (upstream : Nat → UpstreamBehavior) (r : Nat) :
    ((∀ i, i ≤ r → ∃ e, processAttempt parse (upstream i) = .error e) →
      ∃ e, call_openrouter parse upstream r = (.error e, r + 1))
    ∧ (∀ (N0 : Nat) (v : α), N0 ≤ r →
        (∀ i, i < N0 → ∃ e, processAttempt parse (upstream i) = .error e) →
        processAttempt parse (upstream N0) = .ok v →
        call_openrouter parse upstream r = (.ok v, N0 + 1)) := by
  constructor
  · intro h
    obtain ⟨e, _, hloop⟩ :=
      callLoop_all_fail (fun i => processAttempt parse (upstream i)) r 0
        (fun i hi => by simpa using h i hi)
    exact ⟨e, by simpa using hloop⟩
  · intro N0 v hle hfail hok
    have := callLoop_succeeds (fun i => processAttempt parse (upstream i))
      N0 r 0 v hle (fun i hi => by simpa using hfail i hi) (by simpa using hok)
    simpa [call_openrouter] using this

/-- Sample JSON decoder for witnesses: accepts only the literal text 7. -/
def parseOnly7 : String → Option Nat :=
  fun s => if s = "7" then some 7 else none

/-- Sample upstream for the C1 witness: attempt 0 returns status 500,
attempt 1 returns a valid envelope whose content parses. -/
def upstreamRecovers : Nat → UpstreamBehavior :=
  fun i => if i = 0 then .resp ⟨500, true, some "x"⟩
           else .resp ⟨200, true, some "7"⟩

/-- Witness for C1: with retries = 2 and an upstream that fails once then
succeeds, the caller returns the parsed object after exactly 2 attempts. -/
theorem C1_retry_contract_witness :
    call_openrouter parseOnly7 upstreamRecovers 2 = (.ok 7, 2) := by
  have h := (C1_retry_contract parseOnly7 upstreamRecovers 2).2 1 7
    (by omega)
    (fun i hi => ⟨.apiError 500, by
      have : i = 0 := by omega
      subst this
      rfl⟩)
    (by rfl)
  simpa using h

/-- A successful dropUntil splits the list into a prefix with no hit and
a suffix headed by the first hit. -/
theorem dropUntil_spec (p : Char → Bool) :
    ∀ (l l' : List Char), dropUntil p l = some l' →
      ∃ pre c rest, l = pre ++ l' ∧ l' = c :: rest ∧ p c = true ∧
        ∀ d ∈ pre, p d = false := by
  intro l
  induction l with
  | nil =>
    intro l' h
    exact absurd h (by simp [dropUntil])
  | cons a as ih =>
    intro l' h
    rw [dropUntil] at h
    by_cases hpa : p a
    · rw [if_pos hpa] at h
      obtain rfl : a :: as = l' := Option.some.inj h
      exact ⟨[], a, as, by simp, rfl, hpa, by simp⟩
    · rw [if_neg hpa] at h
      obtain ⟨pre, c, rest, hl, hl', hpc, hpre⟩ := ih l' h
      refine ⟨a :: pre, c, rest, by simp [hl], hl', hpc, ?_⟩
      intro d hd
      rcases List.mem_cons.mp hd with hda | hdp
      · subst hda; exact Bool.eq_false_iff.mpr hpa
      · exact hpre d hdp

/-- Behaviour of one attempt once the status, envelope and emptiness
checks have passed: decode, then salvage. -/
theorem processAttempt_decode {α : Type} (parse : String → Option α)
    (c : String) (hblank : ¬ pyStrip c = "") :
    processAttempt parse (.resp ⟨200, true, some c⟩) =
      (match parse c with
       | some v => .ok v
       | none =>
         match extract_braced c with
         | some sub =>
           match parse sub with
           | some v => .ok v
           | none => .error .jsonParseFailure
         | none => .error .jsonParseFailure) := by
  simp only [processAttempt, ne_eq, if_neg hblank]
  norm_num

/-- Claim C2: when the content string does not parse as JSON, the attempt
re-parses the brace-delimited span extracted by the salvage regex and
succeeds when that parses; only when no span exists or the re-parse also
fails does the attempt count as a JSON-decode failure.  The extracted
span is a contiguous piece of the raw text, opens at the first left brace
of the text (no left brace precedes it) and closes at the last right
brace (no right brace follows it). -/
theorem C2_salvage_pass {α : Type} (parse : String → Option α) (c : String)
    (hblank : pyStrip c ≠ "") (hfail : parse c = none) :
    (∀ (sub : String) (v : α), extract_braced c = some sub →
       parse sub = some v →
       processAttempt parse (.resp ⟨200, true, some c⟩) = .ok v)
    ∧ (extract_braced c = none →
       processAttempt parse (.resp ⟨200, true, some c⟩) =
         .error .jsonParseFailure)
    ∧ (∀ sub : String, extract_braced c = some sub → parse sub = none →
       processAttempt parse (.resp ⟨200, true, some c⟩) =
         .error .jsonParseFailure)
    ∧ (∀ sub : String, extract_braced c = some sub →
       ∃ pre post, c.data = pre ++ sub.data ++ post
         ∧ sub.data.head? = some lbrace
         ∧ sub.data.getLast? = some rbrace
         ∧ (∀ d ∈ pre, d ≠ lbrace) ∧ (∀ d ∈ post, d ≠ rbrace)) := by
  refine ⟨?_, ?_, ?_, ?_⟩
  · intro sub v hsub hpsub
    rw [processAttempt_decode parse c hblank]
    simp only [hfail, hsub, hpsub]
  · intro hnone
    rw [processAttempt_decode parse c hblank]
    simp only [hfail, hnone]
  · intro sub hsub hpsub
    rw [processAttempt_decode parse c hblank]
    simp only [hfail, hsub, hpsub]
  · intro sub hsub
    unfold extract_braced at hsub
    rcases h1 : dropUntil (fun d => d = lbrace) c.data with _ | suf
    · rw [h1] at hsub; exact absurd hsub (by simp)
    rw [h1] at hsub
    dsimp only at hsub
    rcases h2 : dropUntil (fun d => d = rbrace) suf.reverse with _ | revPre
    · rw [h2] at hsub; exact absurd hsub (by simp)
    rw [h2] at hsub
    dsimp only at hsub
    obtain rfl : String.mk revPre.reverse = sub := Option.some.inj hsub
    obtain ⟨pre1, c1, rest1, hcd, hsuf1, hpc1, hpre1⟩ :=
      dropUntil_spec _ _ _ h1
    obtain ⟨pre2, c2, rest2, hrev, hrev2, hpc2, hpre2⟩ :=
      dropUntil_spec _ _ _ h2
    have hc1 : c1 = lbrace := by simpa using hpc1
    have hc2 : c2 = rbrace := by simpa using hpc2
    have hsufsplit : suf = revPre.reverse ++ pre2.reverse := by
      have := congrArg List.reverse hrev
      simpa using this
    refine ⟨pre1, pre2.reverse, ?_, ?_, ?_, ?_, ?_⟩
    · rw [hcd, hsufsplit]
      simp
    · show revPre.reverse.head? = some lbrace
      have hne : revPre.reverse ≠ [] := by simp [hrev2]
      have hh : suf.head? = some lbrace := by rw [hsuf1, hc1]; rfl
      rw [hsufsplit] at hh
      rwa [List.head?_append_of_ne_nil _ hne] at hh
    · show revPre.reverse.getLast? = some rbrace
      rw [List.getLast?_reverse, hrev2, hc2]
      rfl
    · intro d hd
      have := hpre1 d hd
      simpa using this
    · intro d hd
      have := hpre2 d (by simpa using hd)
      simpa using this

/-- Sample decoder for the C2 witness: accepts only the literal
brace-wrapped 7. -/
def parseBraced7 : String → Option Nat :=
  fun s => if s = "\x7b7\x7d" then some 7 else none

/-- Witness for C2: on content that fails to parse directly, the salvage
pass extracts the braced span and the attempt succeeds with its parse. -/
theorem C2_salvage_pass_witness :
    processAttempt parseBraced7 (.resp ⟨200, true, some "x\x7b7\x7dy"⟩) =
      .ok 7 :=
  (C2_salvage_pass parseBraced7 "x\x7b7\x7dy" (by decide) (by decide)).1
    "\x7b7\x7d" 7 (by decide) (by decide)

/-! ## openrouter_service.py : build_file_content (lines 53-82) -/

/-- Model identifier routed to for PDFs (line 14). -/
def PDF_MODEL : String := "anthropic/claude-sonnet-4"

/-- Model identifier routed to for everything else (line 15). -/
def TEXT_MODEL : String := "openai/gpt-4o"

/-- get_mime_type (lines 37-51): lookup with octet-stream default. -/
def get_mime_type (file_type : String) : String :=
  let ft := file_type.toLower
  if ft = "pdf" then "application/pdf"
  else if ft = "docx" then
    "application/vnd.openxmlformats-officedocument.wordprocessingml.document"
  else if ft = "doc" then "application/msword"
  else if ft = "png" then "image/png"
  else if ft = "jpg" then "image/jpeg"
  else if ft = "jpeg" then "image/jpeg"
  else if ft = "gif" then "image/gif"
  else if ft = "webp" then "image/webp"
  else if ft = "txt" then "text/plain"
  else if ft = "csv" then "text/csv"
  else if ft = "md" then "text/markdown"
  else "application/octet-stream"

/-- extract_text_from_docx (lines 17-35): the python-docx library call is
the oracle docx giving the joined paragraph and table text; any exception
inside the body is caught and yields the empty string, modelled by the
oracle returning none. -/
def extract_text_from_docx (docx : List Nat → Option String)
    (file_data : List Nat) : String :=
  (docx file_data).getD ""

/-- One element of the content array sent upstream. -/
inductive ContentPart where
  | text (t : String)
  | imageUrl (url : String)
  | fileAttachment (filename fileData : String)
deriving DecidableEq, Repr

/-- build_file_content (lines 53-82), parameterised by the docx extractor
oracle, the UTF-8 decoder oracle (none models a UnicodeDecodeError, which
the bare except catches) and the base64 encoder. -/
def build_file_content (docx : List Nat → Option String)
    (utf8 : List Nat → Option String) (b64 : List Nat → String)
    (file_data : List Nat) (filename : String) (file_type : String) :
    List ContentPart × String :=
  if file_type.toLower ∈ (["docx", "doc"] : List String) then
    let text_content := extract_text_from_docx docx file_data
    if text_content ≠ "" then
      ([.text ("Analyze this document:\n\nFilename: " ++ filename ++
        "\n\nContent:\n" ++ text_content.take 50000)], TEXT_MODEL)
    else
      ([.text ("Unable to extract text from: " ++ filename)], TEXT_MODEL)
  else
    let base64_data := b64 file_data
    let mime_type := get_mime_type file_type
    if file_type.toLower ∈ (["png", "jpg", "jpeg", "gif", "webp"] : List String) then
      ([.text ("Analyze this image: " ++ filename),
        .imageUrl ("data:" ++ mime_type ++ ";base64," ++ base64_data)],
       TEXT_MODEL)
    else if file_type.toLower = "pdf" then
      ([.text ("Analyze this document: " ++ filename),
        .fileAttachment filename
          ("data:" ++ mime_type ++ ";base64," ++ base64_data)],
       PDF_MODEL)
    else
      match utf8 file_data with
      | some text_content =>
        ([.text ("Analyze this document:\n\nFilename: " ++ filename ++
          "\n\nContent:\n" ++ text_content)], TEXT_MODEL)
      | none =>
        ([.text ("Unable to read file: " ++ filename)], TEXT_MODEL)

/-- A string with a nonempty left part is nonempty. -/
theorem append_ne_empty_left {s t : String} (h : s ≠ "") : s ++ t ≠ "" := by
  intro hc
  apply h
  have hd := congrArg String.data hc
  simp only [String.data_append] at hd
  rcases List.append_eq_nil.mp hd with ⟨hs, _⟩
  cases s
  simp_all

/-- Claim C3: for every byte string, filename and file type (in
particular every supported tag), build_file_content is total and returns
a non-empty content payload: the first part is a text part with a
non-empty string (real content or a placeholder notice), and the model
selector is one of the two configured models. -/
theorem C3_content_builder_total (docx utf8 : List Nat → Option String)
    (b64 : List Nat → String) (file_data : List Nat)
    (filename file_type : String) :
    (build_file_content docx utf8 b64 file_data filename file_type).1 ≠ []
    ∧ (∃ t, (build_file_content docx utf8 b64 file_data
        filename file_type).1.head? = some (.text t) ∧ t ≠ "")
    ∧ ((build_file_content docx utf8 b64 file_data filename file_type).2 =
        TEXT_MODEL
      ∨ (build_file_content docx utf8 b64 file_data filename file_type).2 =
        PDF_MODEL) := by
  unfold build_file_content
  split
  · dsimp only
    split
    · exact ⟨by simp, ⟨_, rfl, append_ne_empty_left (append_ne_empty_left
        (append_ne_empty_left (by decide)))⟩, Or.inl rfl⟩
    · exact ⟨by simp, ⟨_, rfl, append_ne_empty_left (by decide)⟩, Or.inl rfl⟩
  · dsimp only
    split
    · exact ⟨by simp, ⟨_, rfl, append_ne_empty_left (by decide)⟩, Or.inl rfl⟩
    · split
      · exact ⟨by simp, ⟨_, rfl, append_ne_empty_left (by decide)⟩,
          Or.inr rfl⟩
      · split
        · exact ⟨by simp, ⟨_, rfl, append_ne_empty_left (append_ne_empty_left
            (append_ne_empty_left (by decide)))⟩, Or.inl rfl⟩
        · exact ⟨by simp, ⟨_, rfl, append_ne_empty_left (by decide)⟩,
            Or.inl rfl⟩

/-! ## openrouter_service.py : analyze_document dispatch (lines 561-582) -/

/-- Which analysis coroutine analyze_document awaits, with the arguments
it passes.  Each constructor stands for the like-named function of
openrouter_service.py; their prompt texts are fixed string constants and
play no role in the dispatch. -/
inductive AnalysisCall where
  | summarize (file_data : List Nat) (filename file_type : String)
  | pros_cons (file_data : List Nat) (filename file_type : String)
  | gaps_risks (file_data : List Nat) (filename file_type : String)
  | upgrade_suggestions (file_data : List Nat) (filename file_type : String)
  | qa (file_data : List Nat) (filename file_type : String)
      (question : Option String)
  | chart_data (file_data : List Nat) (filename file_type : String)
      (chart_type : Option String)
  | report (file_data : List Nat) (filename file_type : String)
  | slides (file_data : List Nat) (filename file_type : String)
deriving DecidableEq, Repr

/-- Python kwargs.get with a default: the outer Option is key presence,
the inner Option is a None value; the default applies only when the key
is absent. -/
def kwargsGet (kw : Option (Option String)) (dflt : String) : Option String :=
  match kw with
  | none => some dflt
  | some v => v

/-- analyze_document (lines 561-582): string-tag dispatch over the eight
analysis types, falling through to summarize on anything else.  The
kwargs question and chart_type are threaded as Python kwargs. -/
def analyze_document (file_data : List Nat) (filename file_type : String)
    (analysis_type : String) (question chart_type : Option (Option String)) :
    AnalysisCall :=
  if analysis_type = "summarize" then
    .summarize file_data filename file_type
  else if analysis_type = "pros_cons" then
    .pros_cons file_data filename file_type
  else if analysis_type = "gaps_risks" then
    .gaps_risks file_data filename file_type
  else if analysis_type = "upgrade" then
    .upgrade_suggestions file_data filename file_type
  else if analysis_type = "qa" then
    .qa file_data filename file_type
      (kwargsGet question "What is this document about?")
  else if analysis_type = "chart" then
    .chart_data file_data filename file_type (kwargsGet chart_type "bar")
  else if analysis_type = "report" then
    .report file_data filename file_type
  else if analysis_type = "slides" then
    .slides file_data filename file_type
  else
    .summarize file_data filename file_type

/-- The eight recognised analysis-type tags. -/
def knownAnalysisTags : List String :=
  ["summarize", "pros_cons", "gaps_risks", "upgrade", "qa", "chart",
   "report", "slides"]

/-- Claim C4: every tag outside the eight known ones dispatches to the
summarize analysis, identically to the tag summarize, rather than being
rejected; and each known tag dispatches to exactly its corresponding
analysis function. -/
theorem C4_dispatch (file_data : List Nat) (filename file_type : String)
    (question chart_type : Option (Option String)) :
    (∀ tag : String, tag ∉ knownAnalysisTags →
      analyze_document file_data filename file_type tag question chart_type =
        analyze_document file_data filename file_type "summarize"
          question chart_type)
    ∧ analyze_document file_data filename file_type "summarize"
        question chart_type = .summarize file_data filename file_type
    ∧ analyze_document file_data filename file_type "pros_cons"
        question chart_type = .pros_cons file_data filename file_type
    ∧ analyze_document file_data filename file_type "gaps_risks"
        question chart_type = .gaps_risks file_data filename file_type
    ∧ analyze_document file_data filename file_type "upgrade"
        question chart_type = .upgrade_suggestions file_data filename file_type
    ∧ analyze_document file_data filename file_type "qa"
        question chart_type = .qa file_data filename file_type
          (kwargsGet question "What is this document about?")
    ∧ analyze_document file_data filename file_type "chart"
        question chart_type = .chart_data file_data filename file_type
          (kwargsGet chart_type "bar")
    ∧ analyze_document file_data filename file_type "report"
        question chart_type = .report file_data filename file_type
    ∧ analyze_document file_data filename file_type "slides"
        question chart_type = .slides file_data filename file_type := by
  refine ⟨?_, rfl, rfl, rfl, rfl, rfl, rfl, rfl, rfl⟩
  intro tag htag
  simp only [knownAnalysisTags, List.mem_cons, List.not_mem_nil, or_false,
    not_or] at htag
  obtain ⟨h1, h2, h3, h4, h5, h6, h7, h8⟩ := htag
  simp only [analyze_document, if_neg h1, if_neg h2, if_neg h3, if_neg h4,
    if_neg h5, if_neg h6, if_neg h7, if_neg h8]
  simp

/-- Witness for C4: the unrecognised tag translate dispatches to the
summarize analysis. -/
theorem C4_dispatch_witness :
    analyze_document [1, 2] "a.txt" "txt" "translate" none none =
      AnalysisCall.summarize [1, 2] "a.txt" "txt" :=
  ((C4_dispatch [1, 2] "a.txt" "txt" none none).1 "translate"
    (by decide)).trans
    (C4_dispatch [1, 2] "a.txt" "txt" none none).2.1

/-! ## main.py : endpoint validation and effects -/

/-- A row of the documents table as returned by database.get_document. -/
structure DocumentRecord where
  id : Nat
  filename : String
  file_type : String
  file_data : List Nat
deriving DecidableEq, Repr

/-- One criterion dict of a decision-matrix request; weight is optional
because the source reads it with c.get weight 0. -/
structure Criterion where
  name : String
  weight : Option ℚ
  description : Option String
deriving DecidableEq, Repr

/-- CompareRequest (main.py lines 75-77). -/
structure CompareRequest where
  document_ids : List Nat
  workspace_id : Option Nat
deriving DecidableEq, Repr

/-- DecisionMatrixRequest (main.py lines 79-83). -/
structure DecisionMatrixRequest where
  document_ids : List Nat
  criteria : List Criterion
  name : String
  workspace_id : Option Nat
deriving DecidableEq, Repr

/-- QARequest (main.py lines 85-88). -/
structure QARequest where
  document_ids : List Nat
  question : String
  workspace_id : Option Nat
deriving DecidableEq, Repr

/-- The detail payloads of the HTTPExceptions raised by the endpoints. -/
inductive ApiDetail where
  | unsupportedFileType
  | fileTooLarge
  | atLeastTwoForComparison
  | atLeastTwoRequired
  | atLeastOneDocument
  | weightsNotOne (total : ℚ)
  | documentNotFound (id : Nat)
  | documentNotFoundPlain
  | internalError (msg : String)
deriving DecidableEq, Repr

/-- Upstream calls and database writes performed by a handler, in
program order.  Reads are modelled by the getDoc oracle instead. -/
inductive Effect (α : Type) where
  | upstreamCompare (docs : List DocumentRecord)
  | upstreamMatrix (docs : List DocumentRecord) (criteria : List Criterion)
  | saveDocument (filename file_type : String) (size : Nat)
      (data : List Nat) (workspace : Option Nat)
  | upstreamSuggestions (data : List Nat) (filename file_type : String)
  | updateSuggestions (docId : Nat) (payload : α)
  | upstreamQA (doc : DocumentRecord) (question : String)
  | saveComparison (ids : List Nat) (result : α) (workspace : Option Nat)
  | saveMatrix (name : String) (criteria : List Criterion)
      (options : List (Nat × String)) (result : α) (workspace : Option Nat)
  | saveQA (question : String) (answer : α) (ids : List Nat)
      (workspace : Option Nat)
deriving DecidableEq, Repr

/-- The per-id lookup loop shared by compare and decision-matrix: each id
is looked up with get_document and a missing one raises 404. -/
def fetchDocuments (getDoc : Nat → Option DocumentRecord) :
    List Nat → Except (Nat × ApiDetail) (List DocumentRecord)
  | [] => .ok []
  | id :: rest =>
    match getDoc id with
    | none => .error (404, .documentNotFound id)
    | some d =>
      match fetchDocuments getDoc rest with
      | .ok ds => .ok (d :: ds)
      | .error e => .error e

/-- compare_documents (main.py lines 306-344): reject fewer than 2 ids
with 400, fetch every document (404 on a missing one), call upstream
(two-document and multi-document comparison both end in one upstream
call), save the comparison row, return its id with the result.  A raised
upstream error surfaces as 500. -/
def compare_documents {α : Type} (getDoc : Nat → Option DocumentRecord)
    (upstream : List DocumentRecord → Except String α) (newId : Nat)
    (req : CompareRequest) :
    Except (Nat × ApiDetail) (Nat × α) × List (Effect α) :=
  if req.document_ids.length < 2 then
    (.error (400, .atLeastTwoForComparison), [])
  else
    match fetchDocuments getDoc req.document_ids with
    | .error e => (.error e, [])
    | .ok docs =>
      match upstream docs with
      | .error msg => (.error (500, .internalError msg), [.upstreamCompare docs])
      | .ok result =>
        (.ok (newId, result),
         [.upstreamCompare docs,
          .saveComparison req.document_ids result req.workspace_id])

/-- create_decision_matrix (main.py lines 357-392): reject fewer than 2
ids with 400, reject criteria weights whose sum strays more than 0.01
from 1.0 with 400 citing the computed sum, fetch the documents, call
upstream, save the matrix row with (id, name) options. -/
def create_decision_matrix {α : Type} (getDoc : Nat → Option DocumentRecord)
    (upstream : List DocumentRecord → List Criterion → Except String α)
    (newId : Nat) (req : DecisionMatrixRequest) :
    Except (Nat × ApiDetail) (Nat × α) × List (Effect α) :=
  if req.document_ids.length < 2 then
    (.error (400, .atLeastTwoRequired), [])
  else
    let total_weight := (req.criteria.map (fun c => c.weight.getD 0)).sum
    if |total_weight - 1| > 1 / 100 then
      (.error (400, .weightsNotOne total_weight), [])
    else
      match fetchDocuments getDoc req.document_ids with
      | .error e => (.error e, [])
      | .ok docs =>
        match upstream docs req.criteria with
        | .error msg =>
          (.error (500, .internalError msg), [.upstreamMatrix docs req.criteria])
        | .ok result =>
          (.ok (newId, result),
           [.upstreamMatrix docs req.criteria,
            .saveMatrix req.name req.criteria
              (docs.map (fun d => (d.id, d.filename))) result req.workspace_id])

/-- Every error of the lookup loop is a 404 for some missing id. -/
theorem fetchDocuments_error (getDoc : Nat → Option DocumentRecord) :
    ∀ (ids : List Nat) (e : Nat × ApiDetail),
      fetchDocuments getDoc ids = .error e →
      ∃ id, e = (404, .documentNotFound id) := by
  intro ids
  induction ids with
  | nil =>
    intro e h
    exact absurd h (by simp [fetchDocuments])
  | cons id rest ih =>
    intro e h
    rw [fetchDocuments] at h
    rcases hg : getDoc id with _ | d <;> rw [hg] at h
    · exact ⟨id, (Except.error.inj h).symm⟩
    · rcases hf : fetchDocuments getDoc rest with ex | ds <;> rw [hf] at h
      · have hx := Except.error.inj h
        subst hx
        exact ih _ hf
      · exact absurd h (by simp)

/-- Claim C5: for a decision-matrix request with at least 2 document ids,
the request is rejected with the 400 weight-validation error citing the
computed sum exactly when that sum (criteria missing a weight contribute
0) lies outside the interval from 0.99 to 1.01; a sum inside the band
passes the weight check.  Arithmetic is modelled exactly over the
rationals. -/
theorem C5_weights_band {α : Type} (getDoc : Nat → Option DocumentRecord)
    (upstream : List DocumentRecord → List Criterion → Except String α)
    (newId : Nat) (req : DecisionMatrixRequest)
    (h2 : 2 ≤ req.document_ids.length) :
    ((create_decision_matrix getDoc upstream newId req).1 =
        .error (400, .weightsNotOne
          ((req.criteria.map (fun c => c.weight.getD 0)).sum))
      ↔ ((req.criteria.map (fun c => c.weight.getD 0)).sum < 99 / 100
        ∨ 101 / 100 < (req.criteria.map (fun c => c.weight.getD 0)).sum)) := by
  unfold create_decision_matrix
  rw [if_neg (by omega)]
  dsimp only
  set total := (req.criteria.map (fun c => c.weight.getD 0)).sum with htot
  have hiff : |total - 1| > 1 / 100 ↔ (total < 99 / 100 ∨ 101 / 100 < total) := by
    rw [gt_iff_lt, lt_abs]
    constructor
    · rintro (h | h)
      · right; linarith
      · left; linarith
    · rintro (h | h)
      · right; linarith
      · left; linarith
  by_cases habs : |total - 1| > 1 / 100
  · rw [if_pos habs]
    exact iff_of_true rfl (hiff.mp habs)
  · rw [if_neg habs]
    refine iff_of_false ?_ (fun hr => habs (hiff.mpr hr))
    rcases hfd : fetchDocuments getDoc req.document_ids with e | docs
    · obtain ⟨id, rfl⟩ := fetchDocuments_error getDoc _ e hfd
      simp
    · dsimp only
      split <;> simp

/-- Claim C6: a comparison request or a decision-matrix request listing
fewer than 2 document ids is rejected with a 400 validation error and an
empty effect trace: no upstream call and no database write happens. -/
theorem C6_validation_before_effects {α : Type}
    (getDoc : Nat → Option DocumentRecord)
    (upC : List DocumentRecord → Except String α)
    (upM : List DocumentRecord → List Criterion → Except String α)
    (newIdC newIdM : Nat) (reqc : CompareRequest)
    (reqm : DecisionMatrixRequest)
    (hc : reqc.document_ids.length < 2)
    (hm : reqm.document_ids.length < 2) :
    compare_documents getDoc upC newIdC reqc =
      (.error (400, .atLeastTwoForComparison), [])
    ∧ create_decision_matrix getDoc upM newIdM reqm =
      (.error (400, .atLeastTwoRequired), []) := by
  constructor
  · unfold compare_documents
    rw [if_pos hc]
  · unfold create_decision_matrix
    rw [if_pos hm]

/-- Sample document row for endpoint witnesses. -/
def sampleDoc : DocumentRecord := ⟨1, "a.txt", "txt", [104, 105]⟩

/-- Sample lookup oracle for endpoint witnesses. -/
def getDocAll : Nat → Option DocumentRecord := fun _ => some sampleDoc

/-- Sample upstream oracle for the decision-matrix witnesses. -/
def upstreamMatrixOk : List DocumentRecord → List Criterion →
    Except String Nat := fun _ _ => .ok 0

/-- Sample upstream oracle for the comparison witness. -/
def upstreamCompareOk : List DocumentRecord → Except String Nat :=
  fun _ => .ok 0

/-- The decision-matrix request of the spec example: two documents,
criteria weights 0.6 and 0.5. -/
def reqWeights : DecisionMatrixRequest :=
  ⟨[1, 2], [⟨"cost", some (6 / 10), none⟩, ⟨"quality", some (5 / 10), none⟩],
   "m", none⟩

/-- Witness for C5: weights 0.6 and 0.5 on a two-document request are
rejected citing the sum 1.1. -/
theorem C5_weights_band_witness :
    (create_decision_matrix getDocAll upstreamMatrixOk 7 reqWeights).1 =
      .error (400, .weightsNotOne
        ((reqWeights.criteria.map (fun c => c.weight.getD 0)).sum)) :=
  (C5_weights_band getDocAll upstreamMatrixOk 7 reqWeights (by decide)).mpr
    (Or.inr (by norm_num [reqWeights]))

/-- Witness for C6: one-document compare and decision-matrix requests are
both rejected with 400 and an empty effect trace. -/
theorem C6_validation_before_effects_witness :
    compare_documents getDocAll upstreamCompareOk 1 ⟨[5], none⟩ =
      (.error (400, .atLeastTwoForComparison), [])
    ∧ create_decision_matrix getDocAll upstreamMatrixOk 1 ⟨[3], [], "m", none⟩ =
      (.error (400, .atLeastTwoRequired), []) :=
  C6_validation_before_effects getDocAll upstreamCompareOk upstreamMatrixOk
    1 1 ⟨[5], none⟩ ⟨[3], [], "m", none⟩ (by decide) (by decide)

/-! ## main.py : upload_document (lines 154-197) -/

/-- The fixed allow-list of upload extensions (main.py line 162). -/
def allowed_types : List String :=
  ["pdf", "docx", "doc", "png", "jpg", "jpeg", "gif", "webp", "txt", "md",
   "csv"]

/-- Python: file.filename or unknown (None and the empty string are both
falsy). -/
def effectiveFilename (fn : Option String) : String :=
  match fn with
  | none => "unknown"
  | some s => if s = "" then "unknown" else s

/-- Python str.lower over the characters. -/
def pyLower (s : String) : String :=
  String.mk (s.data.map Char.toLower)

/-- Python: filename.split(".")[-1].lower() if "." in filename else "":
the piece after the last dot, lowercased. -/
def extOf (filename : String) : String :=
  if ('.' : Char) ∈ filename.data then
    pyLower (String.mk
      ((filename.data.reverse.takeWhile (fun c => c ≠ '.')).reverse))
  else ""

/-- The JSON body returned by a successful upload. -/
structure UploadResponse (α : Type) where
  id : Nat
  filename : String
  file_type : String
  file_size : Nat
  workspace_id : Option Nat
  suggestions : Option α
deriving DecidableEq, Repr

/-- upload_document (main.py lines 154-197): extension check, size check
(15 MiB), save_document, then the optional auto-analysis whose failure is
caught and logged.  newId is the row id the database assigns; suggest is
the outcome of get_analysis_suggestions; updateOk tells whether
update_document_suggestions succeeds (its failure is caught by the same
try block, after the suggestions variable is already set). -/
def upload_document {α : Type} (newId : Nat) (suggest : Except String α)
    (updateOk : Bool) (rawFilename : Option String) (file_data : List Nat)
    (workspace_id : Option Nat) (auto_analyze : Bool) :
    Except (Nat × ApiDetail) (UploadResponse α) × List (Effect α) :=
  let filename := effectiveFilename rawFilename
  let file_ext := extOf filename
  if file_ext ∉ allowed_types then
    (.error (400, .unsupportedFileType), [])
  else
    let file_size := file_data.length
    if file_size > 15 * 1024 * 1024 then
      (.error (400, .fileTooLarge), [])
    else
      let saveEff : Effect α :=
        .saveDocument filename file_ext file_size file_data workspace_id
      if auto_analyze then
        match suggest with
        | .error _ =>
          (.ok ⟨newId, filename, file_ext, file_size, workspace_id, none⟩,
           [saveEff, .upstreamSuggestions file_data filename file_ext])
        | .ok s =>
          if updateOk then
            (.ok ⟨newId, filename, file_ext, file_size, workspace_id, some s⟩,
             [saveEff, .upstreamSuggestions file_data filename file_ext,
              .updateSuggestions newId s])
          else
            (.ok ⟨newId, filename, file_ext, file_size, workspace_id, some s⟩,
             [saveEff, .upstreamSuggestions file_data filename file_ext])
      else
        (.ok ⟨newId, filename, file_ext, file_size, workspace_id, none⟩,
         [saveEff])

/-- Claim C7: an upload whose filename extension is outside the
allow-list, or whose byte size exceeds 15 MiB, is rejected with a 400
error and an empty effect trace: in particular no document row is
saved. -/
theorem C7_upload_rejections {α : Type} (newId : Nat)
    (suggest : Except String α) (updateOk : Bool)
    (rawFilename : Option String) (file_data : List Nat)
    (workspace_id : Option Nat) (auto_analyze : Bool)
    (h : extOf (effectiveFilename rawFilename) ∉ allowed_types
      ∨ file_data.length > 15 * 1024 * 1024) :
    ∃ d, upload_document newId suggest updateOk rawFilename file_data
      workspace_id auto_analyze = (.error (400, d), []) := by
  unfold upload_document
  by_cases hext : extOf (effectiveFilename rawFilename) ∉ allowed_types
  · exact ⟨.unsupportedFileType, by rw [if_pos hext]⟩
  · have hsize : file_data.length > 15 * 1024 * 1024 := by tauto
    refine ⟨.fileTooLarge, ?_⟩
    rw [if_neg hext]
    dsimp only
    rw [if_pos hsize]

/-- Claim C8: when auto_analyze is on and the suggestions call raises,
the upload still succeeds: the document-save effect issued before the
analysis attempt is retained, the response is the normal success body,
and its suggestions field is null; no error propagates. -/
theorem C8_auto_analysis_swallowed {α : Type} (newId : Nat) (msg : String)
    (updateOk : Bool) (rawFilename : Option String) (file_data : List Nat)
    (workspace_id : Option Nat)
    (hext : extOf (effectiveFilename rawFilename) ∈ allowed_types)
    (hsize : file_data.length ≤ 15 * 1024 * 1024) :
    upload_document newId (Except.error msg : Except String α) updateOk
      rawFilename file_data workspace_id true =
      (.ok ⟨newId, effectiveFilename rawFilename,
        extOf (effectiveFilename rawFilename), file_data.length,
        workspace_id, none⟩,
       [.saveDocument (effectiveFilename rawFilename)
          (extOf (effectiveFilename rawFilename)) file_data.length
          file_data workspace_id,
        .upstreamSuggestions file_data (effectiveFilename rawFilename)
          (extOf (effectiveFilename rawFilename))]) := by
  unfold upload_document
  rw [if_neg (by simpa using hext)]
  dsimp only
  rw [if_neg (by omega), if_pos rfl]

/-- Witness for C7: an unsupported .exe upload is rejected with 400 and
nothing saved. -/
theorem C7_upload_rejections_witness :
    ∃ d, upload_document 1 (Except.ok (0 : Nat)) true (some "a.exe") [0]
      none true = (.error (400, d), []) :=
  C7_upload_rejections 1 (Except.ok 0) true (some "a.exe") [0] none true
    (Or.inl (by decide))

/-- Witness for C8: a valid txt upload whose auto-analysis raises still
succeeds with null suggestions and the saved row. -/
theorem C8_auto_analysis_swallowed_witness :
    upload_document 1 (Except.error "boom" : Except String Nat) true
      (some "a.txt") [104, 105] none true =
      (.ok ⟨1, "a.txt", "txt", 2, none, none⟩,
       [.saveDocument "a.txt" "txt" 2 [104, 105] none,
        .upstreamSuggestions [104, 105] "a.txt" "txt"]) := by
  have h := C8_auto_analysis_swallowed (α := Nat) 1 "boom" true
    (some "a.txt") [104, 105] none (by decide) (by decide)
  simpa using h

/-! ## main.py : ask_question (lines 407-435) -/

/-- The JSON body returned by a successful Q&A request. -/
structure QAResponse (α : Type) where
  qa_id : Nat
  result : α
deriving DecidableEq, Repr

/-- ask_question (main.py lines 407-435): reject an empty id list with
400, look up only the first listed document (404 when missing), run the
qa analysis on that document and the question, save the history row with
the full id list, return the row id and the answer.  qaCall is the
upstream qa analysis on the fetched document. -/
def ask_question {α : Type} (getDoc : Nat → Option DocumentRecord)
    (qaCall : DocumentRecord → String → Except String α) (newId : Nat)
    (req : QARequest) :
    Except (Nat × ApiDetail) (QAResponse α) × List (Effect α) :=
  match req.document_ids with
  | [] => (.error (400, .atLeastOneDocument), [])
  | firstId :: _ =>
    match getDoc firstId with
    | none => (.error (404, .documentNotFoundPlain), [])
    | some doc =>
      match qaCall doc req.question with
      | .error msg =>
        (.error (500, .internalError msg), [.upstreamQA doc req.question])
      | .ok result =>
        (.ok ⟨newId, result⟩,
         [.upstreamQA doc req.question,
          .saveQA req.question result req.document_ids req.workspace_id])

/-- Claim C10: a Q&A request with at least one document id is answered
from the first listed document only: the outcome is unchanged under any
lookup oracle agreeing on the first id (the remaining ids are never
read), the upstream call carries only the first document, and the saved
history row records the full supplied id list. -/
theorem C10_qa_first_document_only {α : Type}
    (getDoc getDocB : Nat → Option DocumentRecord)
    (qaCall : DocumentRecord → String → Except String α) (newId : Nat)
    (req : QARequest) (d : Nat) (rest : List Nat)
    (hids : req.document_ids = d :: rest) :
    (getDoc d = getDocB d →
      ask_question getDoc qaCall newId req =
        ask_question getDocB qaCall newId req)
    ∧ (∀ (doc : DocumentRecord) (a : α), getDoc d = some doc →
        qaCall doc req.question = .ok a →
        ask_question getDoc qaCall newId req =
          (.ok ⟨newId, a⟩,
           [.upstreamQA doc req.question,
            .saveQA req.question a (d :: rest) req.workspace_id])) := by
  constructor
  · intro hagree
    unfold ask_question
    rw [hids]
    dsimp only
    rw [hagree]
  · intro doc a hdoc hqa
    unfold ask_question
    rw [hids]
    dsimp only
    rw [hdoc]
    dsimp only
    rw [hqa]

/-- Sample upstream qa oracle for the C10 witness. -/
def qaCallOk : DocumentRecord → String → Except String Nat :=
  fun _ _ => .ok 0

/-- Witness for C10: a two-document Q&A request answers from the first
document and records both ids in the saved row. -/
theorem C10_qa_first_document_only_witness :
    ask_question getDocAll qaCallOk 3 ⟨[1, 2], "q", none⟩ =
      (.ok ⟨3, 0⟩,
       [.upstreamQA sampleDoc "q", .saveQA "q" 0 [1, 2] none]) :=
  (C10_qa_first_document_only getDocAll getDocAll qaCallOk 3
    ⟨[1, 2], "q", none⟩ 1 [2] rfl).2 sampleDoc 0 rfl rfl

/-! ## database.py : schema delete rules (init_database, lines 47-145) -/

/-- Row of workspaces (lines 53-61). -/
structure WorkspaceRow where
  id : Nat
  name : String
  description : Option String
deriving DecidableEq, Repr

/-- Row of documents (lines 64-76); workspace_id SET NULL on workspace
delete. -/
structure DocumentRow where
  id : Nat
  workspace_id : Option Nat
  filename : String
  file_type : String
  file_size : Nat
  file_data : List Nat
  suggestions : Option String
deriving DecidableEq, Repr

/-- Row of analysis_results (lines 79-88); CASCADE on document delete. -/
structure AnalysisRow where
  id : Nat
  document_id : Nat
  analysis_type : String
  result_json : String
deriving DecidableEq, Repr

/-- Row of comparisons (lines 91-100); SET NULL on workspace delete. -/
structure ComparisonRow where
  id : Nat
  workspace_id : Option Nat
  document_ids : List Nat
  result_json : String
deriving DecidableEq, Repr

/-- Row of decision_matrices (lines 103-114); SET NULL on workspace
delete. -/
structure DecisionMatrixRow where
  id : Nat
  workspace_id : Option Nat
  name : String
  criteria : String
  options : String
  result_json : Option String
deriving DecidableEq, Repr

/-- Row of charts (lines 117-127); CASCADE on document delete. -/
structure ChartRow where
  id : Nat
  document_id : Nat
  chart_type : String
  title : Option String
  chart_data : String
deriving DecidableEq, Repr

/-- Row of qa_history (lines 130-140); SET NULL on workspace delete. -/
structure QARow where
  id : Nat
  workspace_id : Option Nat
  document_ids : Option (List Nat)
  question : String
  answer_json : String
deriving DecidableEq, Repr

/-- The seven tables created by init_database. -/
structure DBState where
  workspaces : List WorkspaceRow
  documents : List DocumentRow
  analysis_results : List AnalysisRow
  comparisons : List ComparisonRow
  decision_matrices : List DecisionMatrixRow
  charts : List ChartRow
  qa_history : List QARow
deriving DecidableEq, Repr

/-- delete_document (database.py lines 251-257) under the schema rules:
the DELETE on documents cascades to analysis_results and charts through
their ON DELETE CASCADE foreign keys; no other table references
documents. -/
def delete_document (s : DBState) (docId : Nat) : DBState :=
  { s with
    documents := s.documents.filter (fun r => r.id ≠ docId),
    analysis_results :=
      s.analysis_results.filter (fun r => r.document_id ≠ docId),
    charts := s.charts.filter (fun r => r.document_id ≠ docId) }

/-- delete_workspace (database.py lines 191-197) under the schema rules:
the DELETE on workspaces sets the workspace_id of referencing documents,
comparisons, decision_matrices and qa_history rows to NULL through their
ON DELETE SET NULL foreign keys; no row of those tables is deleted. -/
def delete_workspace (s : DBState) (wsId : Nat) : DBState :=
  { s with
    workspaces := s.workspaces.filter (fun r => r.id ≠ wsId),
    documents := s.documents.map (fun r =>
      if r.workspace_id = some wsId then { r with workspace_id := none }
      else r),
    comparisons := s.comparisons.map (fun r =>
      if r.workspace_id = some wsId then { r with workspace_id := none }
      else r),
    decision_matrices := s.decision_matrices.map (fun r =>
      if r.workspace_id = some wsId then { r with workspace_id := none }
      else r),
    qa_history := s.qa_history.map (fun r =>
      if r.workspace_id = some wsId then { r with workspace_id := none }
      else r) }

/-- Claim C9: in every database state, deleting a document removes
exactly the AnalysisResult and Chart rows referencing it (no referencing
row survives, every other row survives), while deleting a workspace
keeps every document (same row count; each document survives, with the
reference nulled exactly when it pointed at the deleted workspace) and
leaves no document referencing the deleted workspace. -/
theorem C9_delete_rules (s : DBState) (docId wsId : Nat) :
    (∀ r ∈ (delete_document s docId).analysis_results, r.document_id ≠ docId)
    ∧ (∀ r ∈ (delete_document s docId).charts, r.document_id ≠ docId)
    ∧ (∀ r ∈ s.analysis_results, r.document_id ≠ docId →
        r ∈ (delete_document s docId).analysis_results)
    ∧ (∀ r ∈ s.charts, r.document_id ≠ docId →
        r ∈ (delete_document s docId).charts)
    ∧ (delete_workspace s wsId).documents.length = s.documents.length
    ∧ (∀ r ∈ (delete_workspace s wsId).documents, r.workspace_id ≠ some wsId)
    ∧ (∀ r ∈ s.documents,
        (if r.workspace_id = some wsId then { r with workspace_id := none }
         else r) ∈ (delete_workspace s wsId).documents) := by
  refine ⟨?_, ?_, ?_, ?_, ?_, ?_, ?_⟩
  · intro r hr
    exact of_decide_eq_true (List.mem_filter.mp hr).2
  · intro r hr
    exact of_decide_eq_true (List.mem_filter.mp hr).2
  · intro r hr hne
    exact List.mem_filter.mpr ⟨hr, decide_eq_true hne⟩
  · intro r hr hne
    exact List.mem_filter.mpr ⟨hr, decide_eq_true hne⟩
  · exact List.length_map _ _
  · intro r hr
    obtain ⟨r0, _, hmap⟩ := List.mem_map.mp hr
    by_cases hw : r0.workspace_id = some wsId
    · rw [if_pos hw] at hmap
      rw [← hmap]
      simp
    · rw [if_neg hw] at hmap
      rw [← hmap]
      exact hw
  · intro r hr
    exact List.mem_map_of_mem _ hr

/-- A small populated database for the C9 witness. -/
def demoState : DBState :=
  { workspaces := [⟨2, "w", none⟩],
    documents := [⟨7, some 2, "a.txt", "txt", 2, [1], none⟩],
    analysis_results := [⟨1, 7, "summarize", "x"⟩, ⟨2, 5, "qa", "y"⟩],
    comparisons := [],
    decision_matrices := [],
    charts := [⟨1, 5, "bar", none, "d"⟩],
    qa_history := [] }

/-- Witness for C9: deleting document 5 from the demo state keeps the
analysis row of document 7, and deleting workspace 2 keeps the document
count. -/
theorem C9_delete_rules_witness :
    (⟨1, 7, "summarize", "x"⟩ : AnalysisRow) ∈
      (delete_document demoState 5).analysis_results
    ∧ (delete_workspace demoState 2).documents.length =
      demoState.documents.length :=
  ⟨(C9_delete_rules demoState 5 2).2.2.1 ⟨1, 7, "summarize", "x"⟩
      (by decide) (by decide),
    (C9_delete_rules demoState 5 2).2.2.2.2.1⟩

end AnalysisDoc
